import Mathlib

/-!
# Verification of the OurMemories API persistence layer (src/server.js)

Shallow embedding of the trip/moment CRUD backend.  The relational store is a
record of row lists; SQL statements become pure functions on that record; one
`nextId` counter models the database's id allocation (every generated id is
fresh with respect to all stored rows, which in theorems appears as explicit
well-formedness hypotheses).  Timestamps are integers (minutes since the Unix
epoch); a calendar date is represented by its day index (floor of minutes/1440)
in the relevant time zone, which determines the `to_char(..,'YYYY-MM-DD')`
output up to the injective date formatting.  JavaScript truthiness on `x || y`
for strings ("" and null/undefined are falsy) is modelled explicitly.
Each HTTP handler is a function from the database (plus the request's identity
headers, body, and the current time) to a status code, an optional response
payload, and the database after the request; a `BEGIN`-ed transaction that is
never committed (early `return` before `COMMIT`, or an exception followed by
`ROLLBACK`) leaves the database unchanged.
-/

namespace OurMemories

/-- JavaScript `s || null` on an optional string field: `undefined` and the
empty string are falsy and give `null`; any other string is kept. -/
def jsOrNull : Option String → Option String
  | none => none
  | some s => if s = "" then none else some s

/-- JavaScript `s || null` on a string known to be present. -/
def strOrNull (s : String) : Option String :=
  if s = "" then none else some s

/-- JavaScript `Number(x) || 0` on an optional numeric field
(`Number(undefined)` is `NaN`, falsy). -/
def jsNumOr0 : Option Int → Int
  | none => 0
  | some n => n

/-- JavaScript `Number(x) || null` on an optional numeric field: absent gives
`null`, and `0` is falsy so it also gives `null`. -/
def jsNumOrNull : Option Int → Option Int
  | none => none
  | some n => if n = 0 then none else some n

/-- Row of the `users` table. -/
structure UserRow where
  id : Nat
  email : String
  displayName : Option String
  lastLoginAt : Int
deriving DecidableEq, Repr

/-- Row of the `subscriptions` table. -/
structure SubscriptionRow where
  userId : Nat
  provider : String
  plan : String
  status : String
deriving DecidableEq, Repr

/-- Row of the `trips` table. -/
structure TripRow where
  id : Nat
  ownerUserId : Nat
  title : String
  startDate : Option String
  endDate : Option String
  timezone : String
  coverMediaId : Option Nat
  createdAt : Int
deriving DecidableEq, Repr

/-- Row of the `trip_members` table (composite key `(trip_id, user_id)`). -/
structure TripMemberRow where
  tripId : Nat
  userId : Nat
  role : String
  status : String
deriving DecidableEq, Repr

/-- Row of the `moments` table. -/
structure MomentRow where
  id : Nat
  tripId : Nat
  createdByUserId : Nat
  story : Option String
  locationName : Option String
  momentTime : Option Int
  createdAt : Int
deriving DecidableEq, Repr

/-- Row of the `media` table. -/
structure MediaRow where
  id : Nat
  tripId : Nat
  momentId : Nat
  type : String
  storageKey : String
  cdnUrl : Option String
  thumbUrl : Option String
  sizeBytes : Int
  sortOrder : Int
  createdAt : Int
deriving DecidableEq, Repr

/-- Row of the `attachments` table (`moment_id` is nullable: an attachment may
be trip-level). -/
structure AttachmentRow where
  id : Nat
  tripId : Nat
  momentId : Option Nat
  uploadedByUserId : Nat
  type : String
  title : Option String
  storageKey : Option String
  cdnUrl : Option String
  sizeBytes : Option Int
  url : Option String
  createdAt : Int
deriving DecidableEq, Repr

/-- The relational store.  `nextId` models the database's id generator: every
id handed out is `nextId`, which is then incremented, so freshly generated ids
never collide with stored rows (stated as hypotheses where needed). -/
structure DB where
  nextId : Nat
  users : List UserRow
  subscriptions : List SubscriptionRow
  trips : List TripRow
  tripMembers : List TripMemberRow
  moments : List MomentRow
  media : List MediaRow
  attachments : List AttachmentRow
deriving DecidableEq, Repr

/-- `INSERT INTO subscriptions .. ON CONFLICT DO NOTHING`: the insert is
dropped silently when a row for the same `user_id` already exists (the table's
uniqueness constraint), and never fails. -/
def insertSubscriptionIgnoreConflict (subs : List SubscriptionRow) (uid : Nat) :
    List SubscriptionRow :=
  if subs.any (fun s => s.userId == uid) then subs
  else subs ++ [{ userId := uid, provider := "internal", plan := "free", status := "active" }]

/-- `INSERT INTO trip_members .. ON CONFLICT DO NOTHING`: dropped silently when
a row with the same `(trip_id, user_id)` key already exists. -/
def insertTripMemberIgnoreConflict (tms : List TripMemberRow) (tid uid : Nat)
    (role status : String) : List TripMemberRow :=
  if tms.any (fun m => m.tripId == tid && m.userId == uid) then tms
  else tms ++ [{ tripId := tid, userId := uid, role := role, status := status }]

/-- `getOrCreateUser` (src/server.js:60-92).  Looks the user up by email; if
found, refreshes `last_login_at` (and `display_name` when a different
non-empty name is supplied); if missing, inserts the user and a default
subscription row (conflict-tolerant).  Returns the resolved user id together
with the database after the statements. -/
def getOrCreateUser (db : DB) (email name : String) (now : Int) : Nat × DB :=
  match db.users.find? (fun u => u.email == email) with
  | some u =>
      let users' := db.users.map (fun v =>
        if v.id = u.id then
          if name ≠ "" ∧ (v.displayName.getD "" = "" ∨ v.displayName ≠ some name) then
            { v with displayName := some name, lastLoginAt := now }
          else
            { v with lastLoginAt := now }
        else v)
      (u.id, { db with users := users' })
  | none =>
      let uid := db.nextId
      let newUser : UserRow :=
        { id := uid, email := email, displayName := jsOrNull (some name), lastLoginAt := now }
      let db1 : DB := { db with nextId := db.nextId + 1, users := db.users ++ [newUser] }
      let db2 : DB :=
        { db1 with subscriptions := insertSubscriptionIgnoreConflict db1.subscriptions uid }
      (uid, db2)

/-- `requireTripAccess` (src/server.js:94-102): the membership row for the
pair with status exactly `'active'`, if any.  A fresh read of `trip_members`
on every call — the embedding keeps no state besides `db`. -/
def requireTripAccess (db : DB) (tripId userId : Nat) : Option TripMemberRow :=
  db.tripMembers.find? (fun m =>
    m.tripId == tripId && m.userId == userId && m.status == "active")

/-! ### Calendar dates and the moment day key

A timestamp is minutes since the Unix epoch; the calendar date of a timestamp
in a given time zone is its day index there (floor division by 1440 minutes),
which determines the `to_char(.., 'YYYY-MM-DD')` output up to the injective
rendering of a date as a string.  In PostgreSQL, `to_char` on a `timestamptz`
renders it in the connection's session time zone, while
`ts AT TIME ZONE 'UTC'` first converts it to the UTC wall-clock time; the
session time zone enters the model as an explicit offset (in minutes) from
UTC. -/

/-- Day index of a timestamp rendered in UTC
(`to_char(ts AT TIME ZONE 'UTC', 'YYYY-MM-DD')`). -/
def utcDay (t : Int) : Int := Int.fdiv t 1440

/-- Day index of a timestamp rendered in the session time zone
(`to_char(ts, 'YYYY-MM-DD')` on a `timestamptz`). -/
def sessionDay (tzOffsetMin t : Int) : Int := utcDay (t + tzOffsetMin)

/-- The `dayKey` column of the moment-listing query (src/server.js:238):
`COALESCE(to_char(moment_time AT TIME ZONE 'UTC','YYYY-MM-DD'),
to_char(created_at,'YYYY-MM-DD'))` — UTC date of `moment_time` when present,
otherwise the session-time-zone date of `created_at`. -/
def momentDayKey (tzOffsetMin : Int) (m : MomentRow) : Int :=
  match m.momentTime with
  | some t => utcDay t
  | none => sessionDay tzOffsetMin m.createdAt

/-! ### The moment-listing queries (src/server.js:225-311) -/

/-- `COALESCE(moment_time, created_at)`: a moment's effective time. -/
def effTime (m : MomentRow) : Int := m.momentTime.getD m.createdAt

/-- `ORDER BY COALESCE(moment_time, created_at) ASC`. -/
def effLe (a b : MomentRow) : Prop := effTime a ≤ effTime b

instance : DecidableRel effLe := fun a b => by unfold effLe; infer_instance

instance : IsTotal MomentRow effLe := ⟨fun a b => Int.le_total (effTime a) (effTime b)⟩

instance : IsTrans MomentRow effLe := ⟨fun _ _ _ h h' => le_trans h h'⟩

/-- `ORDER BY moment_id, sort_order, created_at` on the `media` table. -/
def mediaLe (a b : MediaRow) : Prop :=
  a.momentId < b.momentId ∨ (a.momentId = b.momentId ∧
    (a.sortOrder < b.sortOrder ∨ (a.sortOrder = b.sortOrder ∧ a.createdAt ≤ b.createdAt)))

instance : DecidableRel mediaLe := fun a b => by unfold mediaLe; infer_instance

instance : IsTotal MediaRow mediaLe := ⟨by intro a b; unfold mediaLe; omega⟩

instance : IsTrans MediaRow mediaLe := ⟨by intro a b c; unfold mediaLe; omega⟩

/-- `ORDER BY moment_id, created_at` on the `attachments` table (the query
filters to rows whose `moment_id` is one of the listed moment ids, so the
`none` default never decides an order among surviving rows of distinct
moments). -/
def attachLe (a b : AttachmentRow) : Prop :=
  a.momentId.getD 0 < b.momentId.getD 0 ∨
    (a.momentId.getD 0 = b.momentId.getD 0 ∧ a.createdAt ≤ b.createdAt)

instance : DecidableRel attachLe := fun a b => by unfold attachLe; infer_instance

instance : IsTotal AttachmentRow attachLe := ⟨by intro a b; unfold attachLe; omega⟩

instance : IsTrans AttachmentRow attachLe := ⟨by intro a b c; unfold attachLe; omega⟩

/-- Within one moment's media group: sort order, then creation time. -/
def mediaInnerLe (a b : MediaRow) : Prop :=
  a.sortOrder < b.sortOrder ∨ (a.sortOrder = b.sortOrder ∧ a.createdAt ≤ b.createdAt)

/-- Within one moment's attachment group: creation time. -/
def attachInnerLe (a b : AttachmentRow) : Prop := a.createdAt ≤ b.createdAt

/-- `SELECT .. FROM moments WHERE trip_id=$1 ORDER BY COALESCE(moment_time,
created_at) ASC`.  SQL `ORDER BY` is modelled by sorting with respect to the
comparator (no stability is guaranteed by SQL and none is relied on). -/
def tripMoments (db : DB) (tid : Nat) : List MomentRow :=
  List.insertionSort effLe (db.moments.filter (fun m => m.tripId == tid))

/-- The single batched media query: `SELECT .. FROM media WHERE moment_id =
ANY($1) ORDER BY moment_id, sort_order, created_at`. -/
def momentMediaRows (db : DB) (ids : List Nat) : List MediaRow :=
  List.insertionSort mediaLe (db.media.filter (fun m => ids.contains m.momentId))

/-- The single batched attachment query: `SELECT .. FROM attachments WHERE
moment_id = ANY($1) ORDER BY moment_id, created_at`. -/
def momentAttachRows (db : DB) (ids : List Nat) : List AttachmentRow :=
  List.insertionSort attachLe (db.attachments.filter (fun a =>
    match a.momentId with
    | some i => ids.contains i
    | none => false))

/-- A media element of the listing payload.  `url`/`streamUrl` are
`COALESCE(cdn_url,'')` and `thumbUrl` is `COALESCE(thumb_url, cdn_url, '')`
in SQL, each then passed through `x || null` in JS. -/
structure MediaOut where
  id : Nat
  type : String
  url : Option String
  thumbUrl : Option String
  streamUrl : Option String
deriving DecidableEq, Repr

/-- An attachment element of the listing payload. -/
structure AttachOut where
  id : Nat
  type : String
  title : Option String
  url : Option String
deriving DecidableEq, Repr

/-- A moment aggregate of the listing payload. -/
structure MomentOut where
  id : Nat
  story : String
  locationName : String
  momentTime : Option Int
  dayKey : Int
  media : List MediaOut
  attachments : List AttachOut
deriving DecidableEq, Repr

/-- Rendering of one media row (src/server.js:252-270). -/
def renderMedia (m : MediaRow) : MediaOut :=
  { id := m.id, type := m.type,
    url := strOrNull (m.cdnUrl.getD ""),
    thumbUrl := strOrNull ((m.thumbUrl.orElse (fun _ => m.cdnUrl)).getD ""),
    streamUrl := strOrNull (m.cdnUrl.getD "") }

/-- Rendering of one attachment row (src/server.js:274-291): `title` is
`COALESCE(title,'')`, `url` is `COALESCE(url, cdn_url, '')`, each then
`x || null` in JS. -/
def renderAttach (a : AttachmentRow) : AttachOut :=
  { id := a.id, type := a.type,
    title := strOrNull (a.title.getD ""),
    url := strOrNull ((a.url.orElse (fun _ => a.cdnUrl)).getD "") }

/-- Payload mapping of one moment (src/server.js:295-303): `story` and
`locationName` are `m.story || ""` / `m.locationName || ""`, and the media and
attachment groups are the rows of the respective batched query with this
moment's id, in query order (the JS builds the groups by pushing rows in query
iteration order into a per-moment map). -/
def renderMoment (tzOffsetMin : Int) (mediaRows : List MediaRow)
    (attachRows : List AttachmentRow) (m : MomentRow) : MomentOut :=
  { id := m.id,
    story := m.story.getD "",
    locationName := m.locationName.getD "",
    momentTime := m.momentTime,
    dayKey := momentDayKey tzOffsetMin m,
    media := (mediaRows.filter (fun r => r.momentId == m.id)).map renderMedia,
    attachments := (attachRows.filter (fun r => r.momentId == some m.id)).map renderAttach }

/-! ### Storage keys (src/server.js:416-420 and 527-530) -/

/-- Characters kept by the sanitizing regex `[^a-zA-Z0-9._-]+` (ASCII letters,
digits, dot, underscore, hyphen). -/
def isSafeChar (c : Char) : Bool :=
  c.isAlpha || c.isDigit || c == '.' || c == '_' || c == '-'

/-- Helper of `collapseUnsafeRuns`: the Boolean records whether the previous
character was part of a disallowed run (whose underscore is already
emitted). -/
def collapseAux (prevUnsafe : Bool) : List Char → List Char
  | [] => []
  | c :: rest =>
      if isSafeChar c then c :: collapseAux false rest
      else if prevUnsafe then collapseAux true rest
      else '_' :: collapseAux true rest

/-- `String(filename).replace(/[^a-zA-Z0-9._-]+/g, "_")`: each maximal run of
disallowed characters is replaced by a single underscore. -/
def collapseUnsafeRuns (l : List Char) : List Char := collapseAux false l

/-- JavaScript `Array.prototype.slice(-n)` / `String.prototype.slice(-n)`:
the last `n` elements (the whole list when it is shorter). -/
def takeLast (n : Nat) (l : List Char) : List Char := l.drop (l.length - n)

/-- The sanitized filename:
`String(filename).replace(/[^a-zA-Z0-9._-]+/g, "_").slice(-80)`. -/
def safeName (filename : String) : String :=
  String.mk (takeLast 80 (collapseUnsafeRuns filename.data))

/-- `kind === "media" ? "media" : "attachments"`. -/
def folderFor (kind : String) : String :=
  if kind == "media" then "media" else "attachments"

/-- One hexadecimal digit. -/
def hexDigit (n : Nat) : Char :=
  if n < 10 then Char.ofNat (48 + n) else Char.ofNat (97 + (n - 10))

/-- `crypto.randomBytes(k).toString("hex")`: two lowercase hex digits per
byte. -/
def hexEncode (bytes : List Nat) : String :=
  String.mk (List.flatten (bytes.map (fun b => [hexDigit (b / 16 % 16), hexDigit (b % 16)])))

/-- The storage key `trips/<tripId>/<media|attachments>/<random>_<safeName>`
derived in both the sign and the proxy handler (the proxy repeats the same
expressions inline). -/
def storageKeyFor (tripId : Nat) (kind randomHex filename : String) : String :=
  "trips/" ++ toString tripId ++ "/" ++ folderFor kind ++ "/" ++ randomHex
    ++ "_" ++ safeName filename

/-! ### HTTP handlers

Each handler takes the database, the identity headers (`email` is already
trimmed/lowercased and non-empty — `requireEmail` rejected the request
otherwise), the request body/params, and the current time; per-request entropy
and environment configuration appear as explicit parameters.  The result
carries the HTTP status, the success payload if any, and the database after
the request.  A transaction that is `BEGIN`-ed but never committed (early
`return` before `COMMIT`, or an exception answered by `ROLLBACK`) leaves the
published database unchanged. -/

/-- Result of a handler with payload type `α`. -/
structure HandlerRes (α : Type) where
  status : Nat
  body : Option α
  db : DB
deriving DecidableEq, Repr

/-- Response body of trip creation / trip fetch. -/
structure TripOut where
  id : Nat
  title : String
  startDate : Option String
  endDate : Option String
  timezone : String
deriving DecidableEq, Repr

/-- Request body of `POST /api/trips`. -/
structure TripsPostBody where
  title : Option String
  startDate : Option String
  endDate : Option String
  timezone : Option String
deriving DecidableEq, Repr

/-- `POST /api/trips` (src/server.js:153-196).  `failAfterTripInsert` injects
a failure of a statement after the trip insert (the membership insert or the
`COMMIT`); the `catch` branch answers it with `ROLLBACK` and a 500, restoring
the pre-transaction database. -/
def postTrips (db : DB) (email name : String) (body : TripsPostBody) (now : Int)
    (failAfterTripInsert : Bool) : HandlerRes TripOut :=
  match jsOrNull body.title with
  | none => { status := 400, body := none, db := db }
  | some title =>
      -- BEGIN
      let r1 := getOrCreateUser db email name now
      let tid := r1.2.nextId
      let trip : TripRow :=
        { id := tid, ownerUserId := r1.1, title := title,
          startDate := jsOrNull body.startDate, endDate := jsOrNull body.endDate,
          timezone := (jsOrNull body.timezone).getD "America/New_York",
          coverMediaId := none, createdAt := now }
      let db2 : DB := { r1.2 with nextId := r1.2.nextId + 1, trips := r1.2.trips ++ [trip] }
      if failAfterTripInsert then
        -- ROLLBACK: the trip insert (and the user statements) are discarded
        { status := 500, body := none, db := db }
      else
        let db3 : DB := { db2 with
          tripMembers := insertTripMemberIgnoreConflict db2.tripMembers tid r1.1
            "owner" "active" }
        -- COMMIT
        let out : TripOut :=
          { id := tid, title := title,
            startDate := jsOrNull body.startDate, endDate := jsOrNull body.endDate,
            timezone := (jsOrNull body.timezone).getD "America/New_York" }
        { status := 201, body := some out, db := db3 }

/-- `GET /api/trips/:tripId` (src/server.js:198-222).  No transaction: the
identity statements are committed individually. -/
def getTrip (db : DB) (email name : String) (tripId : Nat) (now : Int) :
    HandlerRes TripOut :=
  let r1 := getOrCreateUser db email name now
  match requireTripAccess r1.2 tripId r1.1 with
  | none => { status := 403, body := none, db := r1.2 }
  | some _ =>
      match r1.2.trips.find? (fun t => t.id == tripId) with
      | none => { status := 404, body := none, db := r1.2 }
      | some t =>
          let out : TripOut :=
            { id := t.id, title := t.title, startDate := t.startDate,
              endDate := t.endDate, timezone := t.timezone }
          { status := 200, body := some out, db := r1.2 }

/-- The SQL statements the moment-listing handler issues against the
moment/media/attachment tables. -/
inductive SqlQuery where
  | momentsQ (tripId : Nat)
  | mediaQ (momentIds : List Nat)
  | attachQ (momentIds : List Nat)
deriving DecidableEq, Repr

/-- Result of `GET /api/trips/:tripId/moments`, with the issued listing
queries recorded. -/
structure ListMomentsRes where
  status : Nat
  body : Option (List MomentOut)
  queries : List SqlQuery
  db : DB
deriving DecidableEq, Repr

/-- `GET /api/trips/:tripId/moments` (src/server.js:225-311).  The media and
attachment queries are issued only when at least one moment exists
(`if (momentIds.length)`), each once over the full list of moment ids. -/
def listMoments (db : DB) (email name : String) (tripId : Nat) (now tzOffsetMin : Int) :
    ListMomentsRes :=
  let r1 := getOrCreateUser db email name now
  match requireTripAccess r1.2 tripId r1.1 with
  | none => { status := 403, body := none, queries := [], db := r1.2 }
  | some _ =>
      let ms := tripMoments r1.2 tripId
      let ids := ms.map (fun m => m.id)
      if ids.isEmpty then
        { status := 200,
          body := some (ms.map (renderMoment tzOffsetMin [] [])),
          queries := [SqlQuery.momentsQ tripId],
          db := r1.2 }
      else
        { status := 200,
          body := some (ms.map (renderMoment tzOffsetMin (momentMediaRows r1.2 ids)
            (momentAttachRows r1.2 ids))),
          queries := [SqlQuery.momentsQ tripId, SqlQuery.mediaQ ids, SqlQuery.attachQ ids],
          db := r1.2 }

/-- Request body of `POST /api/trips/:tripId/moments`.  `momentTime` arrives
as a JSON value put through `momentTime || null`; it is modelled as the parsed
timestamp, on which JavaScript falsiness is `jsNumOrNull`. -/
structure MomentsPostBody where
  story : Option String
  locationName : Option String
  momentTime : Option Int
deriving DecidableEq, Repr

/-- `POST /api/trips/:tripId/moments` (src/server.js:313-339).  The 403 path
returns before `COMMIT`, so the transaction's statements are never
published. -/
def postMoment (db : DB) (email name : String) (tripId : Nat)
    (body : MomentsPostBody) (now : Int) : HandlerRes Nat :=
  -- BEGIN
  let r1 := getOrCreateUser db email name now
  match requireTripAccess r1.2 tripId r1.1 with
  | none => { status := 403, body := none, db := db }
  | some _ =>
      let mid := r1.2.nextId
      let row : MomentRow :=
        { id := mid, tripId := tripId, createdByUserId := r1.1,
          story := jsOrNull body.story,
          locationName := jsOrNull body.locationName,
          momentTime := jsNumOrNull body.momentTime,
          createdAt := now }
      -- COMMIT
      { status := 201, body := some mid,
        db := { r1.2 with nextId := r1.2.nextId + 1, moments := r1.2.moments ++ [row] } }

/-- Request body of `POST /api/uploads/sign`. -/
structure SignBody where
  tripId : Option Nat
  kind : Option String
  filename : Option String
  contentType : Option String
  sizeBytes : Option Int
deriving DecidableEq, Repr

/-- Response of `POST /api/uploads/sign`.  The pre-signed URL string itself is
produced by the external object store and is out of the model;
`expiresInSeconds` is the expiry passed to it (`expiresIn: 60 * 10`). -/
structure SignOut where
  storageKey : String
  cdnUrl : String
  expiresInSeconds : Nat
deriving DecidableEq, Repr

/-- `POST /api/uploads/sign` (src/server.js:404-439).  `entropy` is the
request's ten random bytes (`crypto.randomBytes(10)`); `publicBase` is
`B2_PUBLIC_BASE_URL`. -/
def postUploadsSign (db : DB) (email name : String) (b : SignBody) (now : Int)
    (entropy : List Nat) (publicBase : String) : HandlerRes SignOut :=
  match b.tripId, jsOrNull b.kind, jsOrNull b.filename with
  | some tripId, some kind, some filename =>
      let r1 := getOrCreateUser db email name now
      match requireTripAccess r1.2 tripId r1.1 with
      | none => { status := 403, body := none, db := r1.2 }
      | some _ =>
          let storageKey := storageKeyFor tripId kind (hexEncode entropy) filename
          let out : SignOut :=
            { storageKey := storageKey,
              cdnUrl := publicBase ++ "/" ++ storageKey,
              expiresInSeconds := 60 * 10 }
          { status := 200, body := some out, db := r1.2 }
  | _, _, _ => { status := 400, body := none, db := db }

/-- Request body of `POST /api/media/commit`. -/
structure MediaCommitBody where
  tripId : Option Nat
  momentId : Option Nat
  type : Option String
  storageKey : Option String
  cdnUrl : Option String
  sizeBytes : Option Int
deriving DecidableEq, Repr

/-- `POST /api/media/commit` (src/server.js:441-473).  The 403 and 404 paths
return before `COMMIT`, so nothing of the transaction is published. -/
def postMediaCommit (db : DB) (email name : String) (b : MediaCommitBody)
    (now : Int) : HandlerRes Nat :=
  match b.tripId, b.momentId, jsOrNull b.type, jsOrNull b.storageKey with
  | some tripId, some momentId, some ty, some sk =>
      -- BEGIN
      let r1 := getOrCreateUser db email name now
      match requireTripAccess r1.2 tripId r1.1 with
      | none => { status := 403, body := none, db := db }
      | some _ =>
          -- `SELECT id FROM moments WHERE id=$1 AND trip_id=$2`
          if r1.2.moments.any (fun m => m.id == momentId && m.tripId == tripId) then
            let mid := r1.2.nextId
            let row : MediaRow :=
              { id := mid, tripId := tripId, momentId := momentId, type := ty,
                storageKey := sk, cdnUrl := jsOrNull b.cdnUrl, thumbUrl := none,
                sizeBytes := jsNumOr0 b.sizeBytes, sortOrder := 0, createdAt := now }
            -- COMMIT
            { status := 201, body := some mid,
              db := { r1.2 with nextId := r1.2.nextId + 1, media := r1.2.media ++ [row] } }
          else
            { status := 404, body := none, db := db }
  | _, _, _, _ => { status := 400, body := none, db := db }

/-- Request body of `POST /api/attachments/commit`. -/
structure AttachCommitBody where
  tripId : Option Nat
  momentId : Option Nat
  type : Option String
  title : Option String
  storageKey : Option String
  cdnUrl : Option String
  sizeBytes : Option Int
  url : Option String
deriving DecidableEq, Repr

/-- `POST /api/attachments/commit` (src/server.js:475-511). -/
def postAttachmentsCommit (db : DB) (email name : String) (b : AttachCommitBody)
    (now : Int) : HandlerRes Nat :=
  match b.tripId, jsOrNull b.type with
  | some tripId, some ty =>
      -- BEGIN
      let r1 := getOrCreateUser db email name now
      match requireTripAccess r1.2 tripId r1.1 with
      | none => { status := 403, body := none, db := db }
      | some _ =>
          let aid := r1.2.nextId
          let row : AttachmentRow :=
            { id := aid, tripId := tripId, momentId := b.momentId,
              uploadedByUserId := r1.1, type := ty, title := jsOrNull b.title,
              storageKey := jsOrNull b.storageKey, cdnUrl := jsOrNull b.cdnUrl,
              sizeBytes := jsNumOrNull b.sizeBytes, url := jsOrNull b.url,
              createdAt := now }
          -- COMMIT
          let db2 : DB :=
            { r1.2 with
              nextId := r1.2.nextId + 1
              attachments := r1.2.attachments ++ [row] }
          { status := 201, body := some aid, db := db2 }
  | _, _ => { status := 400, body := none, db := db }

/-- The multipart file of `POST /api/uploads/proxy`. -/
structure FileUpload where
  originalname : String
  size : Nat
  mimetype : Option String
deriving DecidableEq, Repr

/-- Request body of `POST /api/uploads/proxy`. -/
structure ProxyBody where
  tripId : Option Nat
  kind : Option String
deriving DecidableEq, Repr

/-- An object uploaded to the external store. -/
structure S3Put where
  key : String
  contentType : String
deriving DecidableEq, Repr

/-- Response body of `POST /api/uploads/proxy`. -/
structure ProxyOut where
  storageKey : String
  cdnUrl : String
  sizeBytes : Nat
  contentType : Option String
deriving DecidableEq, Repr

/-- Result of the proxy upload, with the puts sent to the object store. -/
structure ProxyRes where
  status : Nat
  body : Option ProxyOut
  s3Puts : List S3Put
  db : DB
deriving DecidableEq, Repr

/-- `POST /api/uploads/proxy` (src/server.js:513-546).  The key derivation
repeats the sign handler's expressions inline. -/
def postUploadsProxy (db : DB) (email name : String) (b : ProxyBody)
    (file : Option FileUpload) (now : Int) (entropy : List Nat)
    (publicBase : String) : ProxyRes :=
  match b.tripId, jsOrNull b.kind, file with
  | some tripId, some kind, some f =>
      let r1 := getOrCreateUser db email name now
      match requireTripAccess r1.2 tripId r1.1 with
      | none => { status := 403, body := none, s3Puts := [], db := r1.2 }
      | some _ =>
          let key := storageKeyFor tripId kind (hexEncode entropy) f.originalname
          let out : ProxyOut :=
            { storageKey := key, cdnUrl := publicBase ++ "/" ++ key,
              sizeBytes := f.size, contentType := f.mimetype }
          let put : S3Put :=
            { key := key, contentType := f.mimetype.getD "application/octet-stream" }
          { status := 200, body := some out, s3Puts := [put], db := r1.2 }
  | _, _, _ => { status := 400, body := none, s3Puts := [], db := db }

/-! ### Sample databases for concrete instantiations -/

/-- The empty database. -/
def emptyDb : DB :=
  { nextId := 0, users := [], subscriptions := [], trips := [], tripMembers := [],
    moments := [], media := [], attachments := [] }

/-- A registered user. -/
def sampleUser : UserRow :=
  { id := 0, email := "a@b", displayName := some "A", lastLoginAt := 0 }

/-- A trip owned by `sampleUser`. -/
def sampleTrip : TripRow :=
  { id := 1, ownerUserId := 0, title := "T", startDate := none, endDate := none,
    timezone := "America/New_York", coverMediaId := none, createdAt := 0 }

/-- `sampleUser`'s active owner membership on `sampleTrip`. -/
def sampleMember : TripMemberRow :=
  { tripId := 1, userId := 0, role := "owner", status := "active" }

/-- The database after user 0 created trip 1. -/
def oneTripDb : DB :=
  { nextId := 2,
    users := [sampleUser],
    subscriptions := [{ userId := 0, provider := "internal", plan := "free",
                        status := "active" }],
    trips := [sampleTrip],
    tripMembers := [sampleMember],
    moments := [], media := [], attachments := [] }

/-- Two trips; user 0 is an active member of trip 1 only, and moment 5 belongs
to trip 2. -/
def crossTripDb : DB :=
  { oneTripDb with
    nextId := 6
    trips := [sampleTrip, { sampleTrip with id := 2, title := "U" }]
    moments := [{ id := 5, tripId := 2, createdByUserId := 0, story := none,
                  locationName := none, momentTime := none, createdAt := 0 }] }

/-- A moment of trip 1 without a moment time. -/
def momentA : MomentRow :=
  { id := 2, tripId := 1, createdByUserId := 0, story := none,
    locationName := some "L", momentTime := none, createdAt := 7 }

/-- A moment of trip 1 with a moment time. -/
def momentB : MomentRow :=
  { id := 3, tripId := 1, createdByUserId := 0, story := some "",
    locationName := none, momentTime := some 3000, createdAt := 1 }

/-- A media row of moment 2 with no stored thumbnail URL. -/
def mediaA : MediaRow :=
  { id := 10, tripId := 1, momentId := 2, type := "photo", storageKey := "k10",
    cdnUrl := some "x", thumbUrl := none, sizeBytes := 1, sortOrder := 1,
    createdAt := 5 }

/-- A media row of moment 2 with an empty stored CDN URL. -/
def mediaB : MediaRow :=
  { id := 11, tripId := 1, momentId := 2, type := "photo", storageKey := "k11",
    cdnUrl := some "", thumbUrl := some "t", sizeBytes := 1, sortOrder := 0,
    createdAt := 9 }

/-- An attachment row of moment 2. -/
def attachA : AttachmentRow :=
  { id := 12, tripId := 1, momentId := some 2, uploadedByUserId := 0,
    type := "pdf", title := none, storageKey := none, cdnUrl := some "c",
    sizeBytes := none, url := none, createdAt := 4 }

/-- Trip 1 with two moments (stored out of order), two media rows and one
attachment on moment 2. -/
def richDb : DB :=
  { oneTripDb with
    nextId := 13
    moments := [momentB, momentA]
    media := [mediaA, mediaB]
    attachments := [attachA] }

/-- A database holding user 0 and their active membership row for trip id 1,
but no trip row (a state referential integrity would forbid; it isolates the
handler's own existence check). -/
def ghostDb : DB :=
  { emptyDb with
    nextId := 2
    users := [sampleUser]
    tripMembers := [sampleMember] }

/-- Trip 1 where user 0 is a former member: the membership row exists but its
status is "inactive". -/
def inactiveMemberDb : DB :=
  { oneTripDb with
    tripMembers := [{ tripId := 1, userId := 0, role := "member",
                      status := "inactive" }] }

/-! ## Theorems

### Identity resolution leaves the trip-scoped tables untouched -/

theorem getOrCreateUser_tripMembers (db : DB) (email name : String) (now : Int) :
    ((getOrCreateUser db email name now).2).tripMembers = db.tripMembers := by
  unfold getOrCreateUser
  cases db.users.find? (fun u => u.email == email) <;> rfl

theorem getOrCreateUser_trips (db : DB) (email name : String) (now : Int) :
    ((getOrCreateUser db email name now).2).trips = db.trips := by
  unfold getOrCreateUser
  cases db.users.find? (fun u => u.email == email) <;> rfl

theorem getOrCreateUser_moments (db : DB) (email name : String) (now : Int) :
    ((getOrCreateUser db email name now).2).moments = db.moments := by
  unfold getOrCreateUser
  cases db.users.find? (fun u => u.email == email) <;> rfl

theorem getOrCreateUser_media (db : DB) (email name : String) (now : Int) :
    ((getOrCreateUser db email name now).2).media = db.media := by
  unfold getOrCreateUser
  cases db.users.find? (fun u => u.email == email) <;> rfl

theorem getOrCreateUser_attachments (db : DB) (email name : String) (now : Int) :
    ((getOrCreateUser db email name now).2).attachments = db.attachments := by
  unfold getOrCreateUser
  cases db.users.find? (fun u => u.email == email) <;> rfl

theorem getOrCreateUser_nextId_le (db : DB) (email name : String) (now : Int) :
    db.nextId ≤ ((getOrCreateUser db email name now).2).nextId := by
  unfold getOrCreateUser
  cases db.users.find? (fun u => u.email == email) <;> simp

/-! ### C4 — first resolution of a new email -/

/-- C4: resolving a previously-unseen email once creates exactly one user row
(with the supplied display name or null, and last-login set to the current
time) and exactly one subscription row `internal`/`free`/`active`; a
uniqueness conflict on the subscription insert is a silent no-op, not a
failure. -/
theorem newEmail_resolution_creates_one_user_and_subscription
    (db : DB) (email name : String) (now : Int)
    (hnew : ∀ u ∈ db.users, u.email ≠ email)
    (hfresh : ∀ s ∈ db.subscriptions, s.userId ≠ db.nextId) :
    ((getOrCreateUser db email name now).2.users.filter
        (fun u => u.email == email) =
      [{ id := db.nextId, email := email, displayName := jsOrNull (some name),
         lastLoginAt := now }])
    ∧ ((getOrCreateUser db email name now).2.subscriptions.filter
        (fun s => s.userId == (getOrCreateUser db email name now).1) =
      [{ userId := db.nextId, provider := "internal", plan := "free",
         status := "active" }])
    ∧ (∀ subs uid, (∃ s ∈ subs, s.userId = uid) →
        insertSubscriptionIgnoreConflict subs uid = subs) := by
  have hfind : db.users.find? (fun u => u.email == email) = none := by
    rw [List.find?_eq_none]
    intro u hu
    simpa using hnew u hu
  have hany : db.subscriptions.any (fun s => s.userId == db.nextId) = false := by
    rw [List.any_eq_false]
    intro s hs
    simpa using hfresh s hs
  have husers : db.users.filter (fun u => u.email == email) = [] := by
    rw [List.filter_eq_nil_iff]
    intro u hu
    simpa using hnew u hu
  have hsubs : db.subscriptions.filter (fun s => s.userId == db.nextId) = [] := by
    rw [List.filter_eq_nil_iff]
    intro s hs
    simpa using hfresh s hs
  refine ⟨?_, ?_, ?_⟩
  · simp [getOrCreateUser, hfind, insertSubscriptionIgnoreConflict, hany,
      List.filter_append, husers]
  · simp [getOrCreateUser, hfind, insertSubscriptionIgnoreConflict, hany,
      List.filter_append, hsubs]
  · rintro subs uid ⟨s, hs, he⟩
    unfold insertSubscriptionIgnoreConflict
    have h : subs.any (fun s => s.userId == uid) = true :=
      List.any_eq_true.mpr ⟨s, hs, by simpa using he⟩
    simp [h]

/-- Witness for C4 at the empty database. -/
theorem newEmail_resolution_witness :
    (∀ u ∈ emptyDb.users, u.email ≠ "a@b")
    ∧ ((getOrCreateUser emptyDb "a@b" "A" 0).2.users.filter
        (fun u => u.email == "a@b") =
      [{ id := 0, email := "a@b", displayName := jsOrNull (some "A"),
         lastLoginAt := 0 }]) :=
  ⟨by decide,
    (newEmail_resolution_creates_one_user_and_subscription emptyDb "a@b" "A" 0
      (by decide) (by decide)).1⟩

/-! ### C1 — trip creation is atomic and installs the owner membership -/

theorem filter_insertTripMember_fresh (tms : List TripMemberRow) (tid uid : Nat)
    (hfresh : ∀ m ∈ tms, m.tripId ≠ tid) :
    (insertTripMemberIgnoreConflict tms tid uid "owner" "active").filter
      (fun m => m.tripId == tid && m.userId == uid && m.role == "owner"
        && m.status == "active") =
    [{ tripId := tid, userId := uid, role := "owner", status := "active" }] := by
  have hany : tms.any (fun m => m.tripId == tid && m.userId == uid) = false := by
    rw [List.any_eq_false]
    intro m hm
    simp only [Bool.and_eq_true, beq_iff_eq]
    exact fun h => absurd h.1 (hfresh m hm)
  have hnil : tms.filter (fun m => m.tripId == tid && m.userId == uid
      && m.role == "owner" && m.status == "active") = [] := by
    rw [List.filter_eq_nil_iff]
    intro m hm
    simp only [Bool.and_eq_true, beq_iff_eq]
    exact fun h => absurd h.1.1.1 (hfresh m hm)
  unfold insertTripMemberIgnoreConflict
  simp [hany, List.filter_append, hnil]

/-- C1: trip creation runs the trip insert and the creator's owner-membership
insert in one transaction.  On success the new trip has exactly one active
owner membership for the creating user; a failure of any statement after the
trip insert rolls the whole transaction back (the response is a 500 and the
database is unchanged, so no trip without an owner membership becomes
visible); and the membership insert itself silently ignores a duplicate. -/
theorem trip_creation_atomic_owner_membership
    (db : DB) (email name : String) (body : TripsPostBody) (now : Int)
    (title : String) (htitle : jsOrNull body.title = some title)
    (hwf : ∀ m ∈ db.tripMembers, m.tripId < db.nextId) :
    ((postTrips db email name body now false).status = 201
      ∧ ∃ out, (postTrips db email name body now false).body = some out
        ∧ (postTrips db email name body now false).db.tripMembers.filter
            (fun m => m.tripId == out.id
              && m.userId == (getOrCreateUser db email name now).1
              && m.role == "owner" && m.status == "active") =
          [{ tripId := out.id, userId := (getOrCreateUser db email name now).1,
             role := "owner", status := "active" }])
    ∧ ((postTrips db email name body now true).status = 500
        ∧ (postTrips db email name body now true).db = db)
    ∧ (∀ tms tid uid role status,
        (∃ m ∈ tms, m.tripId = tid ∧ m.userId = uid) →
        insertTripMemberIgnoreConflict tms tid uid role status = tms) := by
  have hmem := getOrCreateUser_tripMembers db email name now
  have hle := getOrCreateUser_nextId_le db email name now
  have hfresh : ∀ m ∈ (getOrCreateUser db email name now).2.tripMembers,
      m.tripId ≠ (getOrCreateUser db email name now).2.nextId := by
    intro m hm
    rw [hmem] at hm
    have := hwf m hm
    omega
  refine ⟨?_, ?_, ?_⟩
  · refine ⟨by simp [postTrips, htitle], ?_⟩
    refine ⟨{ id := (getOrCreateUser db email name now).2.nextId, title := title,
              startDate := jsOrNull body.startDate,
              endDate := jsOrNull body.endDate,
              timezone := (jsOrNull body.timezone).getD "America/New_York" },
      by simp [postTrips, htitle], ?_⟩
    have h := filter_insertTripMember_fresh
      ((getOrCreateUser db email name now).2.tripMembers)
      ((getOrCreateUser db email name now).2.nextId)
      ((getOrCreateUser db email name now).1) hfresh
    simpa [postTrips, htitle] using h
  · exact ⟨by simp [postTrips, htitle], by simp [postTrips, htitle]⟩
  · rintro tms tid uid role status ⟨m, hm, h1, h2⟩
    unfold insertTripMemberIgnoreConflict
    have h : tms.any (fun m => m.tripId == tid && m.userId == uid) = true :=
      List.any_eq_true.mpr ⟨m, hm, by simp [h1, h2]⟩
    simp [h]

/-- Witness for C1 at the empty database. -/
theorem trip_creation_atomic_witness :
    (jsOrNull (TripsPostBody.mk (some "T") none none none).title = some "T"
      ∧ ∀ m ∈ emptyDb.tripMembers, m.tripId < emptyDb.nextId)
    ∧ (postTrips emptyDb "a@b" "A" (TripsPostBody.mk (some "T") none none none)
        0 false).status = 201
    ∧ (postTrips emptyDb "a@b" "A" (TripsPostBody.mk (some "T") none none none)
        0 true).db = emptyDb :=
  ⟨⟨by decide, by decide⟩,
    (trip_creation_atomic_owner_membership emptyDb "a@b" "A"
      (TripsPostBody.mk (some "T") none none none) 0 "T" (by decide)
      (by decide)).1.1,
    (trip_creation_atomic_owner_membership emptyDb "a@b" "A"
      (TripsPostBody.mk (some "T") none none none) 0 "T" (by decide)
      (by decide)).2.1.2⟩

/-! ### C3 — media commit rejects a moment from another trip -/

/-- C3: a media commit whose `momentId` does not identify a moment with
`trip_id` equal to the given `tripId` — even when the caller holds an active
membership on `tripId` and the moment exists under another trip — is answered
with 404 and no media row is inserted (the transaction is never committed, so
the database is unchanged). -/
theorem media_commit_cross_trip_not_found
    (db : DB) (email name : String) (b : MediaCommitBody) (now : Int)
    (tripId momentId : Nat) (ty sk : String)
    (htrip : b.tripId = some tripId) (hmid : b.momentId = some momentId)
    (hty : jsOrNull b.type = some ty) (hsk : jsOrNull b.storageKey = some sk)
    (hacc : requireTripAccess (getOrCreateUser db email name now).2 tripId
      (getOrCreateUser db email name now).1 ≠ none)
    (hnomatch : ∀ m ∈ db.moments, m.id = momentId → m.tripId ≠ tripId) :
    (postMediaCommit db email name b now).status = 404
    ∧ (postMediaCommit db email name b now).db = db := by
  obtain ⟨mm, hmm⟩ := Option.ne_none_iff_exists'.mp hacc
  have hany : (getOrCreateUser db email name now).2.moments.any
      (fun m => m.id == momentId && m.tripId == tripId) = false := by
    rw [getOrCreateUser_moments, List.any_eq_false]
    intro m hm
    simp only [Bool.and_eq_true, beq_iff_eq]
    exact fun h => absurd h.2 (hnomatch m hm h.1)
  constructor
  · simp [postMediaCommit, htrip, hmid, hty, hsk, hmm, hany]
  · simp [postMediaCommit, htrip, hmid, hty, hsk, hmm, hany]

/-- Witness for C3: user 0 is an active member of trip 1, moment 5 exists but
belongs to trip 2; the commit is answered with 404 and the database is
unchanged. -/
theorem media_commit_cross_trip_witness :
    ((MediaCommitBody.mk (some 1) (some 5) (some "photo") (some "k") none
      none).tripId = some 1
      ∧ ∀ m ∈ crossTripDb.moments, m.id = 5 → m.tripId ≠ 1)
    ∧ (postMediaCommit crossTripDb "a@b" "A"
        (MediaCommitBody.mk (some 1) (some 5) (some "photo") (some "k") none
          none) 3).status = 404
    ∧ (postMediaCommit crossTripDb "a@b" "A"
        (MediaCommitBody.mk (some 1) (some 5) (some "photo") (some "k") none
          none) 3).db = crossTripDb :=
  ⟨⟨by decide, by decide⟩,
    (media_commit_cross_trip_not_found crossTripDb "a@b" "A"
      (MediaCommitBody.mk (some 1) (some 5) (some "photo") (some "k") none none)
      3 1 5 "photo" "k" rfl rfl rfl rfl (by decide) (by decide)).1,
    (media_commit_cross_trip_not_found crossTripDb "a@b" "A"
      (MediaCommitBody.mk (some 1) (some 5) (some "photo") (some "k") none none)
      3 1 5 "photo" "k" rfl rfl rfl rfl (by decide) (by decide)).2⟩

/-! ### C7 — nonexistent trip: 403 takes precedence over 404 -/

/-- C7 counterexample: a `GET /api/trips/:tripId` for a tripId that identifies
no trip is answered 403, not 404, because the access check runs first and the
caller of a nonexistent trip has no membership row. -/
theorem trip_fetch_nonexistent_gives_403
    : emptyDb.trips.find? (fun t => t.id == 5) = none
    ∧ (getTrip emptyDb "a@b" "A" 5 0).status = 403
    ∧ ¬(getTrip emptyDb "a@b" "A" 5 0).status = 404 := by decide

/-- C7 amended: the not-found response for a nonexistent trip id arises only
behind a passing access check — a caller with an active membership row for the
tripId gets 404 when no trip row exists; a caller failing the access check
gets 403 regardless of trip existence. -/
theorem trip_fetch_not_found_behind_access
    (db : DB) (email name : String) (tripId : Nat) (now : Int)
    (hacc : requireTripAccess (getOrCreateUser db email name now).2 tripId
      (getOrCreateUser db email name now).1 ≠ none)
    (hmissing : ∀ t ∈ db.trips, t.id ≠ tripId) :
    (getTrip db email name tripId now).status = 404
    ∧ (∀ db' e n t, requireTripAccess (getOrCreateUser db' e n t).2 tripId
        (getOrCreateUser db' e n t).1 = none →
        (getTrip db' e n tripId t).status = 403) := by
  obtain ⟨mm, hmm⟩ := Option.ne_none_iff_exists'.mp hacc
  have hfind : (getOrCreateUser db email name now).2.trips.find?
      (fun t => t.id == tripId) = none := by
    rw [getOrCreateUser_trips, List.find?_eq_none]
    intro t ht
    simpa using hmissing t ht
  constructor
  · simp [getTrip, hmm, hfind]
  · intro db' e n t h
    simp [getTrip, h]

/-- Witness for the amended C7 at `ghostDb` (membership row present, no trip
row). -/
theorem trip_fetch_not_found_behind_access_witness :
    (requireTripAccess (getOrCreateUser ghostDb "a@b" "A" 0).2 1
        (getOrCreateUser ghostDb "a@b" "A" 0).1 ≠ none
      ∧ ∀ t ∈ ghostDb.trips, t.id ≠ 1)
    ∧ (getTrip ghostDb "a@b" "A" 1 0).status = 404 :=
  ⟨⟨by decide, by decide⟩,
    (trip_fetch_not_found_behind_access ghostDb "a@b" "A" 1 0 (by decide)
      (by decide)).1⟩

/-! ### C5 — empty strings in a moment insert are coerced to null -/

/-- C5 counterexample: a moment created with a supplied empty-string story is
stored with `story = null`, not the empty string — `story || null` in the
insert treats the empty string as absence. -/
theorem moment_empty_string_story_stored_null
    : (postMoment oneTripDb "a@b" "A" 1
        (MomentsPostBody.mk (some "") none none) 7).status = 201
    ∧ (postMoment oneTripDb "a@b" "A" 1
        (MomentsPostBody.mk (some "") none none) 7).db.moments =
      [{ id := 2, tripId := 1, createdByUserId := 0, story := none,
         locationName := none, momentTime := none, createdAt := 7 }] := by
  decide

/-- C5 amended: moment creation performs a single insert appended to the
moments table, in which story, locationName and momentTime are stored as null
when the supplied value is absent OR falsy (in particular a supplied empty
string is coerced to null); any non-empty string is stored as given. -/
theorem moment_insert_falsy_fields_null
    (db : DB) (email name : String) (tripId : Nat) (body : MomentsPostBody)
    (now : Int)
    (hacc : requireTripAccess (getOrCreateUser db email name now).2 tripId
      (getOrCreateUser db email name now).1 ≠ none) :
    (postMoment db email name tripId body now).status = 201
    ∧ (postMoment db email name tripId body now).db.moments =
      db.moments ++
        [{ id := (getOrCreateUser db email name now).2.nextId, tripId := tripId,
           createdByUserId := (getOrCreateUser db email name now).1,
           story := jsOrNull body.story,
           locationName := jsOrNull body.locationName,
           momentTime := jsNumOrNull body.momentTime, createdAt := now }]
    ∧ (∀ s : String, jsOrNull (some s) = none ↔ s = "")
    ∧ jsOrNull none = none := by
  obtain ⟨mm, hmm⟩ := Option.ne_none_iff_exists'.mp hacc
  refine ⟨by simp [postMoment, hmm], ?_, ?_, rfl⟩
  · simp [postMoment, hmm, getOrCreateUser_moments]
  · intro s
    simp [jsOrNull]

/-- Witness for the amended C5 at `oneTripDb`. -/
theorem moment_insert_falsy_fields_null_witness :
    (requireTripAccess (getOrCreateUser oneTripDb "a@b" "A" 7).2 1
        (getOrCreateUser oneTripDb "a@b" "A" 7).1 ≠ none)
    ∧ (postMoment oneTripDb "a@b" "A" 1
        (MomentsPostBody.mk (some "x") (some "") none) 7).db.moments =
      oneTripDb.moments ++
        [{ id := 2, tripId := 1, createdByUserId := 0, story := some "x",
           locationName := none, momentTime := none, createdAt := 7 }] :=
  ⟨by decide,
    by
      have h := (moment_insert_falsy_fields_null oneTripDb "a@b" "A" 1
        (MomentsPostBody.mk (some "x") (some "") none) 7 (by decide)).2.1
      simpa using h⟩

/-! ### C6 — day keys: UTC for momentTime, session time zone for created_at -/

theorem tripMoments_getOrCreateUser (db : DB) (email name : String) (now : Int)
    (tid : Nat) :
    tripMoments (getOrCreateUser db email name now).2 tid = tripMoments db tid := by
  unfold tripMoments
  rw [getOrCreateUser_moments]

/-- Every element of a successful listing payload is the rendering of a stored
moment of the trip. -/
theorem listMoments_body_mem (db : DB) (email name : String) (tripId : Nat)
    (now tz : Int) (mm : TripMemberRow)
    (hmm : requireTripAccess (getOrCreateUser db email name now).2 tripId
      (getOrCreateUser db email name now).1 = some mm) :
    ∀ out ∈ (listMoments db email name tripId now tz).body.getD [],
      ∃ m ∈ db.moments, m.tripId = tripId
        ∧ ∃ mrs ars, out = renderMoment tz mrs ars m := by
  intro out hout
  simp only [listMoments, hmm] at hout
  split at hout <;>
  · simp only [Option.getD_some, List.mem_map] at hout
    obtain ⟨m, hm, hrender⟩ := hout
    rw [tripMoments_getOrCreateUser] at hm
    unfold tripMoments at hm
    rw [List.mem_insertionSort] at hm
    obtain ⟨hm', hp⟩ := List.mem_filter.mp hm
    exact ⟨m, hm', by simpa using hp, _, _, hrender.symm⟩

/-- C6 counterexample: in a session time zone 300 minutes west of UTC, the
moment with id 2 (no momentTime, created at minute 7 UTC, so UTC calendar day
0) is listed with dayKey on day -1: the dayKey of a moment without momentTime
is not the UTC calendar date of its creation timestamp. -/
theorem dayKey_not_utc_for_createdAt
    : ((listMoments richDb "a@b" "A" 1 9 (-300)).body.getD []).map
        (fun o => (o.id, o.dayKey)) = [(2, -1), (3, 2)]
    ∧ (∀ m ∈ richDb.moments, m.id = 2 →
        m.momentTime = none ∧ utcDay m.createdAt = 0)
    ∧ (-1 : Int) ≠ 0 := by decide

/-- C6 amended: a listed moment's dayKey is the UTC calendar date of its
momentTime when present; otherwise it is the calendar date of its creation
timestamp in the database session time zone (the query formats `created_at`
without `AT TIME ZONE 'UTC'`), which coincides with the UTC calendar date
exactly when the session time zone offset is zero. -/
theorem dayKey_utc_momentTime_session_createdAt
    (db : DB) (email name : String) (tripId : Nat) (now tz : Int)
    (hacc : requireTripAccess (getOrCreateUser db email name now).2 tripId
      (getOrCreateUser db email name now).1 ≠ none) :
    ∀ out ∈ (listMoments db email name tripId now tz).body.getD [],
      ∃ m ∈ db.moments, m.tripId = tripId ∧ out.id = m.id
        ∧ out.dayKey = momentDayKey tz m
        ∧ (∀ t, m.momentTime = some t → out.dayKey = utcDay t)
        ∧ (m.momentTime = none → out.dayKey = sessionDay tz m.createdAt
            ∧ (tz = 0 → out.dayKey = utcDay m.createdAt)) := by
  obtain ⟨mm, hmm⟩ := Option.ne_none_iff_exists'.mp hacc
  intro out hout
  obtain ⟨m, hm, htrip, mrs, ars, hrender⟩ :=
    listMoments_body_mem db email name tripId now tz mm hmm out hout
  refine ⟨m, hm, htrip, ?_, ?_, ?_, ?_⟩
  · rw [hrender]; rfl
  · rw [hrender]; rfl
  · intro t ht
    rw [hrender]
    simp [renderMoment, momentDayKey, ht]
  · intro ht
    rw [hrender]
    constructor
    · simp [renderMoment, momentDayKey, ht]
    · intro htz
      simp [renderMoment, momentDayKey, ht, sessionDay, htz]

/-- Witness for the amended C6 at `richDb` in session time zone -300. -/
theorem dayKey_semantics_witness :
    (requireTripAccess (getOrCreateUser richDb "a@b" "A" 9).2 1
        (getOrCreateUser richDb "a@b" "A" 9).1 ≠ none)
    ∧ ∀ out ∈ (listMoments richDb "a@b" "A" 1 9 (-300)).body.getD [],
        ∃ m ∈ richDb.moments, m.tripId = 1 ∧ out.id = m.id
          ∧ out.dayKey = momentDayKey (-300) m
          ∧ (∀ t, m.momentTime = some t → out.dayKey = utcDay t)
          ∧ (m.momentTime = none → out.dayKey = sessionDay (-300) m.createdAt
              ∧ ((-300 : Int) = 0 → out.dayKey = utcDay m.createdAt)) :=
  ⟨by decide,
    dayKey_utc_momentTime_session_createdAt richDb "a@b" "A" 1 9 (-300)
      (by decide)⟩

/-! ### C2 — no active membership: 403 everywhere, nothing performed -/

/-- C2: on every trip-scoped endpoint, a requester without a `trip_members`
row of status exactly "active" for the trip (no row at all, or an inactive
row of a former member) is answered 403, and the requested operation is not
performed: the reads return no payload and issue no listing query, the writes
leave the database unchanged, and no object-store upload happens.  The
membership check is a fresh `trip_members` read against the request's current
database state — the embedding carries no cross-request cache. -/
theorem no_active_membership_403_everywhere
    (db : DB) (email name : String) (tripId : Nat) (now tz : Int)
    (mb : MomentsPostBody) (sb : SignBody) (cb : MediaCommitBody)
    (ab : AttachCommitBody) (pb : ProxyBody) (file : FileUpload)
    (entropy : List Nat) (publicBase : String)
    (hsb : sb.tripId = some tripId) (hsk : jsOrNull sb.kind ≠ none)
    (hsf : jsOrNull sb.filename ≠ none)
    (hcb : cb.tripId = some tripId) (hcm : cb.momentId ≠ none)
    (hct : jsOrNull cb.type ≠ none) (hcs : jsOrNull cb.storageKey ≠ none)
    (hab : ab.tripId = some tripId) (hat : jsOrNull ab.type ≠ none)
    (hpb : pb.tripId = some tripId) (hpk : jsOrNull pb.kind ≠ none)
    (hnoact : ∀ m ∈ db.tripMembers,
      ¬(m.tripId = tripId ∧ m.userId = (getOrCreateUser db email name now).1
        ∧ m.status = "active")) :
    requireTripAccess (getOrCreateUser db email name now).2 tripId
      (getOrCreateUser db email name now).1 = none
    ∧ (getTrip db email name tripId now).status = 403
    ∧ (getTrip db email name tripId now).body = none
    ∧ (listMoments db email name tripId now tz).status = 403
    ∧ (listMoments db email name tripId now tz).body = none
    ∧ (listMoments db email name tripId now tz).queries = []
    ∧ (postMoment db email name tripId mb now).status = 403
    ∧ (postMoment db email name tripId mb now).db = db
    ∧ (postUploadsSign db email name sb now entropy publicBase).status = 403
    ∧ (postUploadsSign db email name sb now entropy publicBase).body = none
    ∧ (postMediaCommit db email name cb now).status = 403
    ∧ (postMediaCommit db email name cb now).db = db
    ∧ (postAttachmentsCommit db email name ab now).status = 403
    ∧ (postAttachmentsCommit db email name ab now).db = db
    ∧ (postUploadsProxy db email name pb (some file) now entropy
        publicBase).status = 403
    ∧ (postUploadsProxy db email name pb (some file) now entropy
        publicBase).s3Puts = []
    ∧ (getTrip db email name tripId now).db.trips = db.trips
    ∧ (listMoments db email name tripId now tz).db.moments = db.moments := by
  obtain ⟨k, hk⟩ := Option.ne_none_iff_exists'.mp hsk
  obtain ⟨f, hf⟩ := Option.ne_none_iff_exists'.mp hsf
  obtain ⟨cmid, hcmid⟩ := Option.ne_none_iff_exists'.mp hcm
  obtain ⟨cty, hcty⟩ := Option.ne_none_iff_exists'.mp hct
  obtain ⟨csk, hcsk⟩ := Option.ne_none_iff_exists'.mp hcs
  obtain ⟨aty, haty⟩ := Option.ne_none_iff_exists'.mp hat
  obtain ⟨pk, hpkk⟩ := Option.ne_none_iff_exists'.mp hpk
  have hnone : requireTripAccess (getOrCreateUser db email name now).2 tripId
      (getOrCreateUser db email name now).1 = none := by
    unfold requireTripAccess
    rw [getOrCreateUser_tripMembers, List.find?_eq_none]
    intro m hm
    simp only [Bool.and_eq_true, beq_iff_eq]
    exact fun h => hnoact m hm ⟨h.1.1, h.1.2, h.2⟩
  refine ⟨hnone, ?_, ?_, ?_, ?_, ?_, ?_, ?_, ?_, ?_, ?_, ?_, ?_, ?_, ?_, ?_,
    ?_, ?_⟩
  · simp [getTrip, hnone]
  · simp [getTrip, hnone]
  · simp [listMoments, hnone]
  · simp [listMoments, hnone]
  · simp [listMoments, hnone]
  · simp [postMoment, hnone]
  · simp [postMoment, hnone]
  · simp [postUploadsSign, hsb, hk, hf, hnone]
  · simp [postUploadsSign, hsb, hk, hf, hnone]
  · simp [postMediaCommit, hcb, hcmid, hcty, hcsk, hnone]
  · simp [postMediaCommit, hcb, hcmid, hcty, hcsk, hnone]
  · simp [postAttachmentsCommit, hab, haty, hnone]
  · simp [postAttachmentsCommit, hab, haty, hnone]
  · simp [postUploadsProxy, hpb, hpkk, hnone]
  · simp [postUploadsProxy, hpb, hpkk, hnone]
  · simp [getTrip, hnone, getOrCreateUser_trips]
  · simp [listMoments, hnone, getOrCreateUser_moments]

/-- Witness for C2: user 0 is a former (inactive) member of trip 1; every
trip-scoped endpoint answers 403 and performs nothing. -/
theorem no_active_membership_403_witness :
    (∀ m ∈ inactiveMemberDb.tripMembers,
      ¬(m.tripId = 1
        ∧ m.userId = (getOrCreateUser inactiveMemberDb "a@b" "A" 0).1
        ∧ m.status = "active"))
    ∧ (getTrip inactiveMemberDb "a@b" "A" 1 0).status = 403
    ∧ (postMoment inactiveMemberDb "a@b" "A" 1
        (MomentsPostBody.mk none none none) 0).db = inactiveMemberDb
    ∧ (postUploadsProxy inactiveMemberDb "a@b" "A"
        (ProxyBody.mk (some 1) (some "media"))
        (some (FileUpload.mk "f.png" 3 none)) 0 [] "p").s3Puts = [] := by
  have h := no_active_membership_403_everywhere inactiveMemberDb "a@b" "A" 1 0 0
    (MomentsPostBody.mk none none none)
    (SignBody.mk (some 1) (some "media") (some "f.png") none none)
    (MediaCommitBody.mk (some 1) (some 5) (some "photo") (some "k") none none)
    (AttachCommitBody.mk (some 1) none (some "pdf") none none none none none)
    (ProxyBody.mk (some 1) (some "media")) (FileUpload.mk "f.png" 3 none)
    [] "p" rfl (by decide) (by decide) rfl (by decide) (by decide) (by decide)
    rfl (by decide) rfl (by decide) (by decide)
  exact ⟨by decide, h.2.1, h.2.2.2.2.2.2.2.1,
    h.2.2.2.2.2.2.2.2.2.2.2.2.2.2.2.1⟩

/-! ### C9 — the signed upload's storage key -/

theorem collapseAux_chars (l : List Char) :
    ∀ b, ∀ c ∈ collapseAux b l, isSafeChar c = true ∨ c = '_' := by
  induction l with
  | nil =>
      intro b c hc
      simp [collapseAux] at hc
  | cons c rest ih =>
      intro b d hd
      by_cases hsafe : isSafeChar c
      · rw [collapseAux, if_pos hsafe] at hd
        rcases List.mem_cons.mp hd with h | h
        · exact Or.inl (h ▸ hsafe)
        · exact ih false d h
      · rw [collapseAux, if_neg hsafe] at hd
        cases b with
        | true =>
            rw [if_pos rfl] at hd
            exact ih true d hd
        | false =>
            rw [if_neg (by simp)] at hd
            rcases List.mem_cons.mp hd with h | h
            · exact Or.inr h
            · exact ih true d h

theorem collapseUnsafeRuns_chars (l : List Char) :
    ∀ c ∈ collapseUnsafeRuns l, isSafeChar c = true ∨ c = '_' :=
  collapseAux_chars l false

theorem safeName_chars (filename : String) :
    ∀ c ∈ (safeName filename).data, isSafeChar c = true ∨ c = '_' := by
  intro c hc
  exact collapseUnsafeRuns_chars filename.data c
    (List.drop_subset _ _ hc)

theorem safeName_length_le (filename : String) :
    (safeName filename).data.length ≤ 80 := by
  show (List.drop _ _).length ≤ 80
  rw [List.length_drop]
  omega

theorem hexEncode_length (bytes : List Nat) :
    (hexEncode bytes).length = 2 * bytes.length := by
  show (List.flatten (bytes.map _)).length = 2 * bytes.length
  induction bytes with
  | nil => rfl
  | cons b bs ih =>
      simp only [List.map_cons, List.flatten_cons, List.length_append,
        List.length_cons, ih]
      simp [Nat.mul_succ, Nat.add_comm]

/-- C9: a successful upload-sign response carries a storage key of the exact
form `trips/<tripId>/<folder>/<random>_<sanitizedFilename>`, where the folder
is "media" exactly when `kind` is "media" and "attachments" for any other
kind; the sanitized filename contains only characters of `[a-zA-Z0-9._-]` or
the underscore that replaced each run of other characters, and keeps at most
the last 80 characters; the random component is the request's own entropy,
two lowercase hex digits per random byte; the expiry passed to the object
store is exactly 600 seconds (10 minutes); and the public URL is the
configured public base, a slash, and the storage key. -/
theorem upload_sign_key_format
    (db : DB) (email name : String) (sb : SignBody) (now : Int)
    (entropy : List Nat) (publicBase : String)
    (tripId : Nat) (kind filename : String)
    (h1 : sb.tripId = some tripId) (h2 : jsOrNull sb.kind = some kind)
    (h3 : jsOrNull sb.filename = some filename)
    (hacc : requireTripAccess (getOrCreateUser db email name now).2 tripId
      (getOrCreateUser db email name now).1 ≠ none) :
    ((postUploadsSign db email name sb now entropy publicBase).body =
      some { storageKey := "trips/" ++ toString tripId ++ "/"
               ++ (if kind = "media" then "media" else "attachments") ++ "/"
               ++ hexEncode entropy ++ "_" ++ safeName filename,
             cdnUrl := publicBase ++ "/"
               ++ ("trips/" ++ toString tripId ++ "/"
                 ++ (if kind = "media" then "media" else "attachments") ++ "/"
                 ++ hexEncode entropy ++ "_" ++ safeName filename),
             expiresInSeconds := 600 })
    ∧ (∀ c ∈ (safeName filename).data, isSafeChar c = true ∨ c = '_')
    ∧ (safeName filename).data.length ≤ 80
    ∧ (hexEncode entropy).length = 2 * entropy.length := by
  obtain ⟨mm, hmm⟩ := Option.ne_none_iff_exists'.mp hacc
  refine ⟨?_, safeName_chars filename, safeName_length_le filename,
    hexEncode_length entropy⟩
  simp only [postUploadsSign, h1, h2, h3, hmm, storageKeyFor, folderFor]
  simp [beq_iff_eq]

/-- Witness for C9 at `oneTripDb` with entropy bytes `[171, 205]`. -/
theorem upload_sign_key_format_witness :
    (requireTripAccess (getOrCreateUser oneTripDb "a@b" "A" 0).2 1
        (getOrCreateUser oneTripDb "a@b" "A" 0).1 ≠ none)
    ∧ (postUploadsSign oneTripDb "a@b" "A"
        (SignBody.mk (some 1) (some "media") (some "a b!!c.png") none none) 0
        [171, 205] "https://cdn").body =
      some { storageKey := "trips/1/media/abcd_a_b_c.png",
             cdnUrl := "https://cdn/trips/1/media/abcd_a_b_c.png",
             expiresInSeconds := 600 } := by
  have h := (upload_sign_key_format oneTripDb "a@b" "A"
    (SignBody.mk (some 1) (some "media") (some "a b!!c.png") none none) 0
    [171, 205] "https://cdn" 1 "media" "a b!!c.png" rfl (by decide) (by decide)
    (by decide)).1
  exact ⟨by decide, by rw [h]; decide⟩

/-! ### C10 — rendering of empty stored fields in the listing -/

/-- C10 counterexample: media row 10 stores no thumbnail URL (NULL — empty in
storage), yet the listing renders its thumbUrl as "x" (the cdn_url fallback
of `COALESCE(thumb_url, cdn_url, '')`), not as null. -/
theorem empty_thumb_rendered_nonnull
    : (∀ r ∈ richDb.media, r.id = 10 → r.thumbUrl = none)
    ∧ ((listMoments richDb "a@b" "A" 1 9 0).body.getD []).map
        (fun o => o.media.map (fun x => (x.id, x.thumbUrl))) =
      [[(11, some "t"), (10, some "x")], []]
    ∧ (some "x" ≠ (none : Option String)) := by decide

theorem strOrNull_ne_empty (s : String) : strOrNull s ≠ some "" := by
  unfold strOrNull
  by_cases h : s = "" <;> simp [h]

theorem strOrNull_eq_none (s : String) : strOrNull s = none ↔ s = "" := by
  unfold strOrNull
  by_cases h : s = "" <;> simp [h]

/-- C10 amended: in every listing response, story and locationName are always
strings — the empty string exactly when the stored value is null or empty,
the stored string otherwise; no media/attachment url, thumbUrl, streamUrl or
title output is ever the empty string; url, streamUrl and title render null
exactly when their stored source (cdn_url, resp. title) is null or empty; but
thumbUrl renders null only when the stored thumb_url is the empty string, or
is null while the cdn_url is also null or empty — a NULL thumb_url with a
non-empty cdn_url is rendered as that cdn_url rather than null, and an
attachment's url falls back to its cdn_url the same way. -/
theorem listing_empty_fields_rendering
    (db : DB) (email name : String) (tripId : Nat) (now tz : Int)
    (hacc : requireTripAccess (getOrCreateUser db email name now).2 tripId
      (getOrCreateUser db email name now).1 ≠ none) :
    (∀ out ∈ (listMoments db email name tripId now tz).body.getD [],
      (∃ m ∈ db.moments, out.story = m.story.getD ""
        ∧ out.locationName = m.locationName.getD "")
      ∧ (∀ x ∈ out.media, ∃ mr : MediaRow, x = renderMedia mr)
      ∧ (∀ x ∈ out.attachments, ∃ ar : AttachmentRow, x = renderAttach ar))
    ∧ (∀ s : Option String, s.getD "" = "" ↔ (s = none ∨ s = some ""))
    ∧ (∀ mr : MediaRow, (renderMedia mr).url ≠ some ""
        ∧ (renderMedia mr).thumbUrl ≠ some ""
        ∧ (renderMedia mr).streamUrl ≠ some "")
    ∧ (∀ mr : MediaRow,
        ((renderMedia mr).url = none ↔ (mr.cdnUrl = none ∨ mr.cdnUrl = some ""))
        ∧ ((renderMedia mr).streamUrl = none ↔
            (mr.cdnUrl = none ∨ mr.cdnUrl = some ""))
        ∧ ((renderMedia mr).thumbUrl = none ↔
            (mr.thumbUrl = some "" ∨ (mr.thumbUrl = none
              ∧ (mr.cdnUrl = none ∨ mr.cdnUrl = some "")))))
    ∧ (∀ ar : AttachmentRow, (renderAttach ar).title ≠ some ""
        ∧ (renderAttach ar).url ≠ some ""
        ∧ ((renderAttach ar).title = none ↔
            (ar.title = none ∨ ar.title = some ""))
        ∧ ((renderAttach ar).url = none ↔
            (ar.url = some "" ∨ (ar.url = none
              ∧ (ar.cdnUrl = none ∨ ar.cdnUrl = some ""))))) := by
  obtain ⟨mm, hmm⟩ := Option.ne_none_iff_exists'.mp hacc
  refine ⟨?_, ?_, ?_, ?_, ?_⟩
  · intro out hout
    obtain ⟨m, hm, _, mrs, ars, hrender⟩ :=
      listMoments_body_mem db email name tripId now tz mm hmm out hout
    refine ⟨⟨m, hm, by rw [hrender]; rfl, by rw [hrender]; rfl⟩, ?_, ?_⟩
    · intro x hx
      rw [hrender] at hx
      obtain ⟨mr, _, hmr⟩ := List.mem_map.mp hx
      exact ⟨mr, hmr.symm⟩
    · intro x hx
      rw [hrender] at hx
      obtain ⟨ar, _, har⟩ := List.mem_map.mp hx
      exact ⟨ar, har.symm⟩
  · intro s
    cases s <;> simp
  · intro mr
    exact ⟨strOrNull_ne_empty _, strOrNull_ne_empty _, strOrNull_ne_empty _⟩
  · intro mr
    refine ⟨?_, ?_, ?_⟩
    · rw [renderMedia]
      cases mr.cdnUrl <;> simp [strOrNull_eq_none]
    · rw [renderMedia]
      cases mr.cdnUrl <;> simp [strOrNull_eq_none]
    · rw [renderMedia]
      cases hth : mr.thumbUrl <;> cases hcd : mr.cdnUrl <;>
        simp [strOrNull_eq_none, Option.orElse]
  · intro ar
    refine ⟨strOrNull_ne_empty _, strOrNull_ne_empty _, ?_, ?_⟩
    · rw [renderAttach]
      cases ar.title <;> simp [strOrNull_eq_none]
    · rw [renderAttach]
      cases hu : ar.url <;> cases hcd : ar.cdnUrl <;>
        simp [strOrNull_eq_none, Option.orElse]

/-- Witness for the amended C10 at `richDb`. -/
theorem listing_empty_fields_rendering_witness :
    (requireTripAccess (getOrCreateUser richDb "a@b" "A" 9).2 1
        (getOrCreateUser richDb "a@b" "A" 9).1 ≠ none)
    ∧ ∀ out ∈ (listMoments richDb "a@b" "A" 1 9 0).body.getD [],
        (∃ m ∈ richDb.moments, out.story = m.story.getD ""
          ∧ out.locationName = m.locationName.getD "")
        ∧ (∀ x ∈ out.media, ∃ mr : MediaRow, x = renderMedia mr)
        ∧ (∀ x ∈ out.attachments, ∃ ar : AttachmentRow, x = renderAttach ar) :=
  ⟨by decide,
    (listing_empty_fields_rendering richDb "a@b" "A" 1 9 0 (by decide)).1⟩

/-! ### C8 — one batched media and one batched attachment query; ordering -/

theorem momentMediaRows_getOrCreateUser (db : DB) (email name : String)
    (now : Int) (ids : List Nat) :
    momentMediaRows (getOrCreateUser db email name now).2 ids =
      momentMediaRows db ids := by
  unfold momentMediaRows
  rw [getOrCreateUser_media]

theorem momentAttachRows_getOrCreateUser (db : DB) (email name : String)
    (now : Int) (ids : List Nat) :
    momentAttachRows (getOrCreateUser db email name now).2 ids =
      momentAttachRows db ids := by
  unfold momentAttachRows
  rw [getOrCreateUser_attachments]

/-- C8: a listing on a trip with at least one moment issues exactly one
batched media query and exactly one batched attachment query, each over the
full list of listed moment ids (never one query per moment); a trip with zero
moments issues neither and returns the empty list; the listed moments are
exactly the trip's stored moments sorted ascending by effective time
(momentTime when present, else creation time); every listed moment carries
its media and attachments as present (possibly empty) sequences — the rows of
the batched queries grouped by moment id in query order — with each moment's
media group ordered by sort order then creation time and its attachment group
by creation time. -/
theorem moments_listing_batched_ordered
    (db : DB) (email name : String) (tripId : Nat) (now tz : Int)
    (mm : TripMemberRow)
    (hmm : requireTripAccess (getOrCreateUser db email name now).2 tripId
      (getOrCreateUser db email name now).1 = some mm) :
    (tripMoments db tripId = [] →
      (listMoments db email name tripId now tz).queries =
        [SqlQuery.momentsQ tripId]
      ∧ (listMoments db email name tripId now tz).body = some [])
    ∧ (tripMoments db tripId ≠ [] →
      (listMoments db email name tripId now tz).queries =
        [SqlQuery.momentsQ tripId,
         SqlQuery.mediaQ ((tripMoments db tripId).map (fun m => m.id)),
         SqlQuery.attachQ ((tripMoments db tripId).map (fun m => m.id))])
    ∧ List.Sorted effLe (tripMoments db tripId)
    ∧ (tripMoments db tripId).Perm
        (db.moments.filter (fun m => m.tripId == tripId))
    ∧ (listMoments db email name tripId now tz).body =
        some ((tripMoments db tripId).map (renderMoment tz
          (momentMediaRows db ((tripMoments db tripId).map (fun m => m.id)))
          (momentAttachRows db ((tripMoments db tripId).map (fun m => m.id)))))
    ∧ (∀ mid : Nat, List.Sorted mediaInnerLe
        ((momentMediaRows db
          ((tripMoments db tripId).map (fun m => m.id))).filter
            (fun r => r.momentId == mid)))
    ∧ (∀ mid : Nat, List.Sorted attachInnerLe
        ((momentAttachRows db
          ((tripMoments db tripId).map (fun m => m.id))).filter
            (fun r => r.momentId == some mid))) := by
  refine ⟨?_, ?_, ?_, ?_, ?_, ?_, ?_⟩
  · intro h
    constructor <;>
      simp [listMoments, hmm, tripMoments_getOrCreateUser, h]
  · intro h
    simp [listMoments, hmm, tripMoments_getOrCreateUser, h,
      momentMediaRows_getOrCreateUser, momentAttachRows_getOrCreateUser]
  · unfold tripMoments
    exact List.sorted_insertionSort effLe _
  · unfold tripMoments
    exact List.perm_insertionSort effLe _
  · by_cases h : tripMoments db tripId = []
    · simp [listMoments, hmm, tripMoments_getOrCreateUser, h]
    · simp [listMoments, hmm, tripMoments_getOrCreateUser, h,
        momentMediaRows_getOrCreateUser, momentAttachRows_getOrCreateUser]
  · intro mid
    have hs : List.Pairwise mediaLe (momentMediaRows db
        ((tripMoments db tripId).map (fun m => m.id))) := by
      unfold momentMediaRows
      exact List.sorted_insertionSort mediaLe _
    have hf := List.Pairwise.filter (fun r => r.momentId == mid) hs
    refine List.Pairwise.imp_of_mem ?_ hf
    intro a b ha hb hab
    have ha' := (List.mem_filter.mp ha).2
    have hb' := (List.mem_filter.mp hb).2
    simp only [beq_iff_eq] at ha' hb'
    unfold mediaLe at hab
    unfold mediaInnerLe
    omega
  · intro mid
    have hs : List.Pairwise attachLe (momentAttachRows db
        ((tripMoments db tripId).map (fun m => m.id))) := by
      unfold momentAttachRows
      exact List.sorted_insertionSort attachLe _
    have hf := List.Pairwise.filter (fun r => r.momentId == some mid) hs
    refine List.Pairwise.imp_of_mem ?_ hf
    intro a b ha hb hab
    have ha' := (List.mem_filter.mp ha).2
    have hb' := (List.mem_filter.mp hb).2
    simp only [beq_iff_eq] at ha' hb'
    unfold attachLe at hab
    unfold attachInnerLe
    rw [ha', hb'] at hab
    simpa using hab

/-- Witness for C8 at `richDb` (two moments, two media rows, one
attachment). -/
theorem moments_listing_batched_witness :
    (requireTripAccess (getOrCreateUser richDb "a@b" "A" 9).2 1
        (getOrCreateUser richDb "a@b" "A" 9).1 = some sampleMember)
    ∧ (tripMoments richDb 1 ≠ [])
    ∧ (listMoments richDb "a@b" "A" 1 9 0).queries =
        [SqlQuery.momentsQ 1, SqlQuery.mediaQ [2, 3], SqlQuery.attachQ [2, 3]]
    ∧ List.Sorted effLe (tripMoments richDb 1) := by
  have h := moments_listing_batched_ordered richDb "a@b" "A" 1 9 0 sampleMember
    (by decide)
  refine ⟨by decide, by decide, ?_, h.2.2.1⟩
  have hq := h.2.1 (by decide)
  rw [hq]
  decide

end OurMemories
